import Mathlib

/-!
Verification of the map-centric real-estate listing browser
(polygon-search API route, recent-listings API route, Dashboard aggregation).

Numbers coming over the wire (`::float` casts, JS numbers) are modelled as
exact rationals `ℚ`; SQL `NULL` / JS `null`/`undefined` as `Option`.
Timestamps (`createdAt`) are modelled as natural numbers (epoch order).
-/

/-- A row of the `Listing` table as returned to the application
(fields of the `Listing` interface in `types.ts`).  `price` is `none` when the
database value is `NULL` (a non-numeric value on the JS side). -/
structure Listing where
  id : String
  address : String
  city : Option String
  state : Option String
  price : Option ℚ
  bedrooms : Option ℚ
  bathrooms : Option ℚ
  squareFeet : Option ℚ
  propertyType : String
  photoUrls : List String
  status : String
  createdAt : Nat
  latitude : ℚ
  longitude : ℚ
  isAssumable : Bool
  denormalizedAssumableInterestRate : Option ℚ
deriving Repr, DecidableEq

/-- The `SearchAggregations` interface of `types.ts`.  The JS object used as a
histogram (string keys in insertion order) is modelled as an association list. -/
structure SearchAggregations where
  totalListings : Nat
  assumableListings : Nat
  medianLoanRate : ℚ
  avgPrice : ℚ
  avgAssumablePrice : ℚ
  propertyTypes : List (String × Nat)
deriving Repr, DecidableEq

/-- `listings.filter(listing => listing.isAssumable)`. -/
def assumableOf (listings : List Listing) : List Listing :=
  listings.filter (fun listing => listing.isAssumable)

/-- `typeof listing.price === 'number' ? listing.price : 0` — the value a
listing's price contributes to a price sum. -/
def priceNum (listing : Listing) : ℚ :=
  match listing.price with
  | some v => v
  | none => 0

/-- `listings.reduce((sum, listing) => sum + (typeof listing.price === 'number' ? listing.price : 0), 0)`. -/
def sumPrices (listings : List Listing) : ℚ :=
  listings.foldl (fun sum listing => sum + priceNum listing) 0

/-- The interest rates used for the median: map each assumable listing to
`denormalizedAssumableInterestRate` and drop `null`/`undefined` values
(`.map(...).filter(rate => rate !== undefined && rate !== null)`). -/
def ratesOf (listings : List Listing) : List ℚ :=
  (assumableOf listings).filterMap
    (fun listing => listing.denormalizedAssumableInterestRate)

/-- The body of the median IIFE shared by `calculateAggregations`
(`route.ts` lines 212–232) and `Dashboard` (lines 48–68): bail out on an empty
assumable list, collect the non-null rates, sort them ascending
(`.sort((a, b) => a - b)`), then take the middle element (odd length) or the
mean of the two middle elements (even length). -/
def medianLoanRateOf (assumableListings : List Listing) : ℚ :=
  if assumableListings.isEmpty then 0
  else
    let rates := List.insertionSort (· ≤ ·)
      (assumableListings.filterMap
        (fun listing => listing.denormalizedAssumableInterestRate))
    if rates.isEmpty then 0
    else
      let midIndex := rates.length / 2
      if rates.length % 2 = 0 then
        (rates.getD (midIndex - 1) 0 + rates.getD midIndex 0) / 2
      else rates.getD midIndex 0

/-- `listing.propertyType || 'Unknown'` (the empty string is the only falsy
string). -/
def typeKey (listing : Listing) : String :=
  if listing.propertyType = "" then "Unknown" else listing.propertyType

/-- One step of the histogram reduce: `acc[type] = (acc[type] || 0) + 1`,
preserving JS object key insertion order. -/
def bumpType (acc : List (String × Nat)) (k : String) : List (String × Nat) :=
  if acc.any (fun p => p.1 = k) then
    acc.map (fun p => if p.1 = k then (p.1, p.2 + 1) else p)
  else acc ++ [(k, 1)]

/-- `listings.reduce((acc, listing) => { const type = listing.propertyType || 'Unknown'; acc[type] = (acc[type] || 0) + 1; return acc }, {})`. -/
def propertyTypesOf (listings : List Listing) : List (String × Nat) :=
  listings.foldl (fun acc listing => bumpType acc (typeKey listing)) []

/-- `calculateAggregations` from `src/app/api/listings/polygon/route.ts`
(lines 203–258). -/
def calculateAggregations (listings : List Listing) : SearchAggregations :=
  let totalListings := listings.length
  let assumableListings := assumableOf listings
  let assumableCount := assumableListings.length
  let medianLoanRate := medianLoanRateOf assumableListings
  let avgPrice :=
    if totalListings = 0 then 0 else sumPrices listings / (totalListings : ℚ)
  let avgAssumablePrice :=
    if assumableCount = 0 then 0
    else sumPrices assumableListings / (assumableCount : ℚ)
  { totalListings := totalListings
    assumableListings := assumableCount
    medianLoanRate := medianLoanRate
    avgPrice := avgPrice
    avgAssumablePrice := avgAssumablePrice
    propertyTypes := propertyTypesOf listings }

/-- The `medianInterestRate` IIFE of `src/components/Dashboard.tsx`
(lines 48–68), applied to the component's `listings` prop. -/
def dashboardMedianInterestRate (listings : List Listing) : ℚ :=
  medianLoanRateOf (listings.filter (fun listing => listing.isAssumable))

/-- The sorted ascending list of non-null assumable interest rates. -/
def sortedRates (listings : List Listing) : List ℚ :=
  List.insertionSort (· ≤ ·) (ratesOf listings)

/-- The median of an already ascending-sorted list, as the specification
words it: the middle element for an odd count, the mean of the two middle
elements for an even count, `0` for the empty list. -/
def medianOfSorted (s : List ℚ) : ℚ :=
  if s.isEmpty then 0
  else if s.length % 2 = 1 then s.getD (s.length / 2) 0
  else (s.getD (s.length / 2 - 1) 0 + s.getD (s.length / 2) 0) / 2

/-! ## The polygon-search POST route (`src/app/api/listings/polygon/route.ts`) -/

/-- The query parameters read from the request URL (lines 10–13).  Each field
is `none` when the parameter is absent; a present numeric parameter is
modelled by the number `parseFloat`/`parseInt` yields for it. -/
structure QueryParams where
  assumable : Option String
  minPrice : Option ℚ
  maxPrice : Option ℚ
  limit : Option Nat
deriving Repr, DecidableEq

/-- `url.searchParams.get('assumable') === 'true'`. -/
def showOnlyAssumable (p : QueryParams) : Bool :=
  p.assumable = some "true"

/-- `parseFloat(url.searchParams.get('minPrice') || '0')`. -/
def minPriceOf (p : QueryParams) : ℚ :=
  p.minPrice.getD 0

/-- `parseFloat(url.searchParams.get('maxPrice') || '10000000')`. -/
def maxPriceOf (p : QueryParams) : ℚ :=
  p.maxPrice.getD 10000000

/-- `parseInt(url.searchParams.get('limit') || '1000')`. -/
def limitOf (p : QueryParams) : Nat :=
  p.limit.getD 1000

/-- An element of a parsed `coordinates` array: either a JS array of
`[lng, lat]` pairs (a polygon ring) or some non-array JSON value. -/
inductive CoordElem where
  | ring (pts : List (ℚ × ℚ))
  | nonArray
deriving Repr, DecidableEq

/-- A parsed `geometry` member: its `type` string and its `coordinates`
member (`none` when `coordinates` is missing/`null`). -/
structure GeomVal where
  typ : String
  coordinates : Option (List CoordElem)
deriving Repr, DecidableEq

/-- One element of the polygon list: a `null`-like (falsy) value, or an
object whose `geometry` member may be missing. -/
inductive FeatureVal where
  | nullish
  | feature (geometry : Option GeomVal)
deriving Repr, DecidableEq

/-- The request body after `request.json()`: the parse may throw, or yield a
JSON array, or any other JSON value. -/
inductive Body where
  | invalidJson
  | single (f : FeatureVal)
  | arr (fs : List FeatureVal)
deriving Repr, DecidableEq

/-- `Array.isArray(body) ? body : [body]` (line 18); `none` when
`request.json()` threw. -/
def toPolygonList : Body → Option (List FeatureVal)
  | .invalidJson => none
  | .single f => some [f]
  | .arr fs => some fs

/-- The geometry of an element, when present. -/
def getGeom : FeatureVal → Option GeomVal
  | .nullish => none
  | .feature g => g

/-- The per-element validation of the loop at lines 33–48:
`polygon` truthy, `polygon.geometry` present, `geometry.type === 'Polygon'`,
`geometry.coordinates` truthy, and `Array.isArray(coordinates[0])`. -/
def validFeature (f : FeatureVal) : Bool :=
  match getGeom f with
  | none => false
  | some g =>
    decide (g.typ = "Polygon") &&
      (match g.coordinates with
       | none => false
       | some ces =>
         match ces with
         | CoordElem.ring _ :: _ => true
         | _ => false)

/-- The validation phase of `POST` (lines 15–48): JSON parsing, the
non-empty check, and the per-element loop; `.error` is an HTTP 400. -/
def validateBody (b : Body) : Except String (List GeomVal) :=
  match toPolygonList b with
  | none => .error "Invalid JSON in request body"
  | some polys =>
    if polys.isEmpty then
      .error "No polygons provided. Expected array of GeoJSON Polygon features."
    else if polys.all validFeature then .ok (polys.filterMap getGeom)
    else .error "Invalid polygon data. Expected GeoJSON Polygon feature."

/-- `polygon.geometry.coordinates[0]`, the ring serialized into the WKT
string (lines 51–56); for a validated feature this is always a `ring`. -/
def outerRing (g : GeomVal) : List (ℚ × ℚ) :=
  match g.coordinates with
  | some (CoordElem.ring pts :: _) => pts
  | _ => []

/-- One conjunct appended to `filterConditions` (lines 59–68). -/
inductive Cond where
  | assumableTrue
  | priceGE (m : ℚ)
  | priceLE (m : ℚ)
deriving Repr, DecidableEq

/-- The `filterConditions` string built at lines 59–68, as the list of SQL
conjuncts it holds. -/
def buildFilterConditions (p : QueryParams) : List Cond :=
  (if showOnlyAssumable p then [Cond.assumableTrue] else []) ++
    (if minPriceOf p > 0 then [Cond.priceGE (minPriceOf p)] else []) ++
      (if maxPriceOf p < 10000000 then [Cond.priceLE (maxPriceOf p)] else [])

/-- Modelled from the spec: how the database evaluates one `filterConditions`
conjunct on a row (`l."isAssumable" = true`, `l.price::float >= m`,
`l.price::float <= m`; a `NULL` price satisfies no price comparison). -/
def evalCond (l : Listing) : Cond → Bool
  | .assumableTrue => l.isAssumable
  | .priceGE m =>
    match l.price with
    | some v => decide (m ≤ v)
    | none => false
  | .priceLE m =>
    match l.price with
    | some v => decide (v ≤ m)
    | none => false

/-- The SELECT statement the route sends through `prisma.$queryRawUnsafe`:
the polygon rings of its geometry, its `filterConditions` conjuncts, and its
`LIMIT`. -/
structure SelectSpec where
  rings : List (List (ℚ × ℚ))
  conds : List Cond
  limit : Nat
deriving Repr, DecidableEq

/-- Modelled from the spec: the PostGIS containment test of the query.
`contains` stands for `ST_Contains(polygon, point)`, which `src/` never
implements; a single polygon is tested directly (lines 93–96), several
polygons are tested against `ST_Union` of them all (lines 123–155), i.e.
against the region covered by at least one of them. -/
def geomContains (contains : List (ℚ × ℚ) → ℚ × ℚ → Bool)
    (rings : List (List (ℚ × ℚ))) (pt : ℚ × ℚ) : Bool :=
  match rings with
  | [r] => contains r pt
  | rs => rs.any (fun r => contains r pt)

/-- Whether a `Listing` row satisfies the query's WHERE clause: its point
`ST_MakePoint(longitude, latitude)` is inside the geometry, and every
`filterConditions` conjunct holds. -/
def rowMatches (contains : List (ℚ × ℚ) → ℚ × ℚ → Bool)
    (s : SelectSpec) (l : Listing) : Bool :=
  geomContains contains s.rings (l.longitude, l.latitude) &&
    s.conds.all (evalCond l)

/-- Modelled from the spec: executing the route's SELECT against the
`Listing` table — the rows satisfying the WHERE clause, truncated by
`LIMIT`. -/
def runSelect (contains : List (ℚ × ℚ) → ℚ × ℚ → Bool)
    (s : SelectSpec) (db : List Listing) : List Listing :=
  (db.filter (rowMatches contains s)).take s.limit

/-- The SELECT the route builds for validated geometries `geoms`. -/
def buildSelect (p : QueryParams) (geoms : List GeomVal) : SelectSpec :=
  { rings := geoms.map outerRing
    conds := buildFilterConditions p
    limit := limitOf p }

/-- A database statement a route can issue.  The two routes only issue
SELECTs; `upsertListing` models the ingestion path's write
(`listing.service.ts`), present so that read-only-ness is not vacuous. -/
inductive DbOp where
  | selectPolygon (s : SelectSpec)
  | selectRecent
  | upsertListing (l : Listing)
deriving Repr, DecidableEq

/-- Whether a statement can modify the `Listing` table. -/
def isWriteOp : DbOp → Bool
  | .upsertListing _ => true
  | _ => false

/-- Modelled from the spec: the effect of one statement on the `Listing`
table (SELECTs leave it unchanged; the ingestion upsert replaces the row
with the same `id` or appends). -/
def applyOp (db : List Listing) : DbOp → List Listing
  | .selectPolygon _ => db
  | .selectRecent => db
  | .upsertListing l =>
    if db.any (fun x => x.id = l.id) then
      db.map (fun x => if x.id = l.id then l else x)
    else db ++ [l]

/-- The `Listing` table after a sequence of statements. -/
def execOps (db : List Listing) (ops : List DbOp) : List Listing :=
  ops.foldl applyOp db

/-- The JSON payload of a 200 response (lines 106–110 and 165–169). -/
structure PostOk where
  listings : List Listing
  aggregations : SearchAggregations
  totalCount : Nat
deriving Repr, DecidableEq

/-- The outcome of the polygon-search POST handler. -/
inductive PostResponse where
  | badRequest
  | ok (r : PostOk)
deriving Repr, DecidableEq

/-- The polygon-search `POST` handler: validate the body, build the SELECT
from the query parameters and the polygon rings, run it, aggregate.  The
second component lists the database statements the request issued. -/
def POST (contains : List (ℚ × ℚ) → ℚ × ℚ → Bool) (p : QueryParams)
    (body : Body) (db : List Listing) : PostResponse × List DbOp :=
  match validateBody body with
  | .error _ => (.badRequest, [])
  | .ok geoms =>
    let s := buildSelect p geoms
    let listings := runSelect contains s db
    (.ok { listings := listings
           aggregations := calculateAggregations listings
           totalCount := listings.length },
      [DbOp.selectPolygon s])

/-! ## The recent-listings GET route (`src/app/api/listings/recent/route.ts`) -/

/-- Ordering by `createdAt` descending (`orderBy: { createdAt: 'desc' }`). -/
def createdDesc (a b : Listing) : Prop :=
  b.createdAt ≤ a.createdAt

instance : DecidableRel createdDesc := fun a b =>
  Nat.decLe b.createdAt a.createdAt

instance : IsTotal Listing createdDesc :=
  ⟨fun a b => Nat.le_total b.createdAt a.createdAt⟩

instance : IsTrans Listing createdDesc :=
  ⟨fun _ _ _ h1 h2 => le_trans h2 h1⟩

/-- Modelled from the spec: `prisma.listing.findMany({ take: 100, orderBy: { createdAt: 'desc' }, select: ... })`
— the rows of the `Listing` table ordered most-recent-first, first 100. -/
def findManyRecent (db : List Listing) : List Listing :=
  (List.insertionSort createdDesc db).take 100

/-- The recent-listings `GET` handler.  The handler signature in the source
is `GET()`: it receives the request but reads nothing from it, so the
response is a function of the table alone; `params` models whatever query
parameters the caller sent.  The second component lists the database
statements issued. -/
def recentGET (_params : List (String × String)) (db : List Listing) :
    List Listing × List DbOp :=
  (findManyRecent db, [DbOp.selectRecent])

/-! ## Claim-side predicates and concrete fixtures -/

/-- A polygon-list element that the specification calls invalid: an element
with no geometry, a geometry whose type is not `'Polygon'`, or coordinates
whose first element is not an array (including missing coordinates, whose
first element is not an array either). -/
def claimInvalidFeature (f : FeatureVal) : Bool :=
  match f with
  | .nullish => true
  | .feature none => true
  | .feature (some g) =>
    !(decide (g.typ = "Polygon")) ||
      (match g.coordinates with
       | none => true
       | some [] => true
       | some (CoordElem.ring _ :: _) => false
       | some (CoordElem.nonArray :: _) => true)

/-- The specification's condition for an HTTP 400: the body is not valid
JSON, or parses to an empty polygon list, or contains an invalid element. -/
def bodyBad (b : Body) : Bool :=
  match toPolygonList b with
  | none => true
  | some fs => fs.isEmpty || fs.any claimInvalidFeature

/-- A containment oracle that accepts every point: used to instantiate the
abstract `ST_Contains` in concrete computations. -/
def cAll : List (ℚ × ℚ) → ℚ × ℚ → Bool := fun _ _ => true

/-- A concrete outer ring. -/
def ringW : List (ℚ × ℚ) := [(0, 0), (4, 0), (4, 4), (0, 4), (0, 0)]

/-- A concrete valid GeoJSON polygon geometry. -/
def geomW : GeomVal := { typ := "Polygon", coordinates := some [CoordElem.ring ringW] }

/-- A concrete valid request body with one polygon feature. -/
def bodyW : Body := Body.arr [FeatureVal.feature (some geomW)]

/-- No query parameters. -/
def pDefault : QueryParams := ⟨none, none, none, none⟩

/-- `?assumable=true&minPrice=5&maxPrice=100`. -/
def pFilters : QueryParams := ⟨some "true", some 5, some 100, none⟩

/-- `?maxPrice=10000000` — the sentinel value given explicitly. -/
def pMaxSentinel : QueryParams := ⟨none, none, some 10000000, none⟩

/-- `?limit=1`. -/
def pLimit1 : QueryParams := ⟨none, none, none, some 1⟩

/-- A concrete assumable listing. -/
def lw : Listing :=
  { id := "L1", address := "1 Main St", city := none, state := none,
    price := some 50, bedrooms := none, bathrooms := none, squareFeet := none,
    propertyType := "House", photoUrls := [], status := "active",
    createdAt := 10, latitude := 1, longitude := 2, isAssumable := true,
    denormalizedAssumableInterestRate := some 5 }

/-- A concrete non-assumable listing. -/
def lx : Listing :=
  { id := "L2", address := "2 Oak Ave", city := none, state := none,
    price := some 30, bedrooms := none, bathrooms := none, squareFeet := none,
    propertyType := "Condo", photoUrls := [], status := "active",
    createdAt := 20, latitude := 1, longitude := 2, isAssumable := false,
    denormalizedAssumableInterestRate := none }

/-- A listing priced above the `maxPrice` sentinel. -/
def lExpensive : Listing :=
  { id := "L3", address := "3 Hill Rd", city := none, state := none,
    price := some 20000000, bedrooms := none, bathrooms := none,
    squareFeet := none, propertyType := "House", photoUrls := [],
    status := "active", createdAt := 30, latitude := 1, longitude := 2,
    isAssumable := false, denormalizedAssumableInterestRate := none }

/-- A one-row table. -/
def dbW : List Listing := [lw]

/-- A two-row table. -/
def db2 : List Listing := [lw, lx]

/-- The 200 payload for a search returning exactly `lw`. -/
def respW : PostOk :=
  { listings := [lw], aggregations := calculateAggregations [lw], totalCount := 1 }

/-- A minimal row whose `createdAt` is `i`. -/
def mkRow (i : Nat) : Listing :=
  { id := "", address := "", city := none, state := none, price := none,
    bedrooms := none, bathrooms := none, squareFeet := none,
    propertyType := "", photoUrls := [], status := "", createdAt := i,
    latitude := 0, longitude := 0, isAssumable := false,
    denormalizedAssumableInterestRate := none }

/-- The oldest row of `dbBig`. -/
def oldestRow : Listing := mkRow 0

/-- A 101-row table, newest first. -/
def dbBig : List Listing := (List.range 101).map (fun i => mkRow (100 - i))

/-- A newer and an older row for the fixed-page demonstration. -/
def rowA : Listing := mkRow 5

/-- The older of the two rows. -/
def rowB : Listing := mkRow 3

/-! ## Theorems -/

theorem medianLoanRateOf_eq (as : List Listing) :
    medianLoanRateOf as =
      medianOfSorted (List.insertionSort (· ≤ ·)
        (as.filterMap (fun listing => listing.denormalizedAssumableInterestRate))) := by
  unfold medianLoanRateOf medianOfSorted
  by_cases h : as.isEmpty
  · rw [List.isEmpty_iff] at h
    subst h
    simp
  · simp only [h, if_false]
    set s := List.insertionSort (· ≤ ·)
      (as.filterMap (fun listing => listing.denormalizedAssumableInterestRate)) with hs
    by_cases h2 : s.isEmpty
    · simp [h2]
    · rcases Nat.mod_two_eq_zero_or_one s.length with hp | hp <;>
        simp [h2, hp]

theorem dashboardMedianInterestRate_eq (ls : List Listing) :
    dashboardMedianInterestRate ls = medianLoanRateOf (assumableOf ls) := rfl

/-- Claim C1: the `medianLoanRate` aggregation equals the median obtained by
sorting the assumable listings' non-null interest rates ascending — the
middle element for an odd count, the mean of the two middle elements for an
even count, `0` when there are no assumable listings or no non-null rates —
and the `Dashboard` component computes the same median by the same steps. -/
theorem median_matches_sorted_middle (ls : List Listing) :
    List.Perm (sortedRates ls) (ratesOf ls)
  ∧ List.Sorted (· ≤ ·) (sortedRates ls)
  ∧ (calculateAggregations ls).medianLoanRate = medianOfSorted (sortedRates ls)
  ∧ dashboardMedianInterestRate ls = medianOfSorted (sortedRates ls) := by
  refine ⟨List.perm_insertionSort _ _, List.sorted_insertionSort _ _, ?_, ?_⟩
  · show medianLoanRateOf (assumableOf ls) = _
    rw [medianLoanRateOf_eq]
    rfl
  · rw [dashboardMedianInterestRate_eq, medianLoanRateOf_eq]
    rfl

/-- Claim C6: for a non-empty result set, `avgPrice` is the sum of the
listings' prices (non-numeric contributing `0`) divided by the number of
listings, and `avgAssumablePrice` the same mean restricted to the assumable
listings, divided by their count. -/
theorem avgPrice_is_mean (ls : List Listing) (h : ls ≠ []) :
    (calculateAggregations ls).avgPrice = sumPrices ls / (ls.length : ℚ)
  ∧ (calculateAggregations ls).avgAssumablePrice =
      sumPrices (assumableOf ls) / ((assumableOf ls).length : ℚ) := by
  have hlen : ls.length ≠ 0 := by
    simpa [List.length_eq_zero] using h
  constructor
  · show (if ls.length = 0 then 0 else sumPrices ls / (ls.length : ℚ)) = _
    rw [if_neg hlen]
  · show (if (assumableOf ls).length = 0 then 0
        else sumPrices (assumableOf ls) / ((assumableOf ls).length : ℚ)) = _
    by_cases hc : (assumableOf ls).length = 0
    · rw [if_pos hc]
      rw [List.length_eq_zero] at hc
      rw [hc]
      show (0 : ℚ) = sumPrices [] / ((0 : Nat) : ℚ)
      norm_num [sumPrices]
    · rw [if_neg hc]

theorem avgPrice_is_mean_witness :
    (calculateAggregations [lw, lx]).avgPrice =
      sumPrices [lw, lx] / (([lw, lx] : List Listing).length : ℚ)
  ∧ (calculateAggregations [lw, lx]).avgAssumablePrice =
      sumPrices (assumableOf [lw, lx]) / ((assumableOf [lw, lx]).length : ℚ) :=
  avgPrice_is_mean [lw, lx] (by decide)

/-- Claim C10: `calculateAggregations` is total and safe on degenerate
input — on the empty list every statistic is `0` and the histogram empty,
and whenever no assumable listing has a non-null rate the median is `0`. -/
theorem aggregations_degenerate :
    calculateAggregations [] =
      { totalListings := 0, assumableListings := 0, medianLoanRate := 0,
        avgPrice := 0, avgAssumablePrice := 0, propertyTypes := [] }
  ∧ ∀ ls : List Listing, ratesOf ls = [] →
      (calculateAggregations ls).medianLoanRate = 0 := by
  constructor
  · rfl
  · intro ls h
    unfold ratesOf at h
    show medianLoanRateOf (assumableOf ls) = 0
    rw [medianLoanRateOf_eq, h]
    rfl

theorem aggregations_degenerate_witness :
    ratesOf [lx] = [] ∧ (calculateAggregations [lx]).medianLoanRate = 0 :=
  ⟨by decide, aggregations_degenerate.2 [lx] (by decide)⟩

theorem geomContains_eq_any
    (contains : List (ℚ × ℚ) → ℚ × ℚ → Bool)
    (rings : List (List (ℚ × ℚ))) (pt : ℚ × ℚ) :
    geomContains contains rings pt = rings.any (fun r => contains r pt) := by
  cases rings with
  | nil => rfl
  | cons r rs =>
    cases rs with
    | nil => simp [geomContains]
    | cons r2 rs2 => rfl

theorem POST_ok_inv {contains : List (ℚ × ℚ) → ℚ × ℚ → Bool}
    {p : QueryParams} {body : Body} {db : List Listing} {resp : PostOk}
    (h : (POST contains p body db).1 = PostResponse.ok resp) :
    ∃ geoms, validateBody body = Except.ok geoms ∧
      resp.listings = runSelect contains (buildSelect p geoms) db ∧
      resp.totalCount = resp.listings.length ∧
      resp.aggregations = calculateAggregations resp.listings := by
  unfold POST at h
  cases hv : validateBody body with
  | error e =>
    rw [hv] at h
    exact absurd h (by simp)
  | ok geoms =>
    rw [hv] at h
    have h' : PostResponse.ok
        { listings := runSelect contains (buildSelect p geoms) db,
          aggregations :=
            calculateAggregations (runSelect contains (buildSelect p geoms) db),
          totalCount := (runSelect contains (buildSelect p geoms) db).length } =
        PostResponse.ok resp := h
    rw [PostResponse.ok.injEq] at h'
    exact ⟨geoms, rfl, by rw [← h'], by rw [← h'], by rw [← h']⟩

theorem mem_of_mem_runSelect {contains : List (ℚ × ℚ) → ℚ × ℚ → Bool}
    {s : SelectSpec} {db : List Listing} {l : Listing}
    (h : l ∈ runSelect contains s db) :
    l ∈ db ∧ rowMatches contains s l = true := by
  unfold runSelect at h
  have h1 : l ∈ db.filter (rowMatches contains s) :=
    (List.take_sublist _ _).subset h
  exact ⟨List.mem_of_mem_filter h1, List.of_mem_filter h1⟩

/-- Claim C2: every returned listing's point lies in one of the requested
polygons; with a single polygon containment is against that polygon, with
several it is against their union, which holds exactly when the point lies
in at least one of them. -/
theorem post_containment (contains : List (ℚ × ℚ) → ℚ × ℚ → Bool)
    (p : QueryParams) (body : Body) (db : List Listing) (resp : PostOk)
    (geoms : List GeomVal)
    (h : (POST contains p body db).1 = PostResponse.ok resp)
    (hg : validateBody body = Except.ok geoms) :
    (∀ l ∈ resp.listings,
        (geoms.map outerRing).any
          (fun ring => contains ring (l.longitude, l.latitude)) = true)
  ∧ (∀ ring, geoms.map outerRing = [ring] →
        ∀ l ∈ resp.listings, contains ring (l.longitude, l.latitude) = true)
  ∧ ∀ rings pt, geomContains contains rings pt = true ↔
      ∃ ring ∈ rings, contains ring pt = true := by
  obtain ⟨geoms', hg', hlst, -, -⟩ := POST_ok_inv h
  rw [hg] at hg'
  cases hg'
  have hmem : ∀ l ∈ resp.listings,
      geomContains contains (geoms.map outerRing) (l.longitude, l.latitude) = true := by
    intro l hl
    rw [hlst] at hl
    have := (mem_of_mem_runSelect hl).2
    unfold rowMatches at this
    simp only [Bool.and_eq_true] at this
    exact this.1
  refine ⟨?_, ?_, ?_⟩
  · intro l hl
    rw [← geomContains_eq_any]
    exact hmem l hl
  · intro ring hring l hl
    have := hmem l hl
    rw [hring] at this
    exact this
  · intro rings pt
    rw [geomContains_eq_any]
    simp [List.any_eq_true]

theorem post_containment_witness :
    cAll ringW (lw.longitude, lw.latitude) = true :=
  (post_containment cAll pDefault bodyW dbW respW [geomW] rfl
    rfl).2.1 ringW (by decide) lw (by decide)

theorem conds_all_of_mem_run {contains : List (ℚ × ℚ) → ℚ × ℚ → Bool}
    {p : QueryParams} {body : Body} {db : List Listing} {resp : PostOk}
    {l : Listing}
    (h : (POST contains p body db).1 = PostResponse.ok resp)
    (hl : l ∈ resp.listings) :
    ∀ c ∈ buildFilterConditions p, evalCond l c = true := by
  obtain ⟨geoms, -, hlst, -, -⟩ := POST_ok_inv h
  rw [hlst] at hl
  have := (mem_of_mem_runSelect hl).2
  unfold rowMatches at this
  simp only [Bool.and_eq_true] at this
  intro c hc
  exact List.all_eq_true.mp this.2 c hc

/-- Claim C3: the optional filters are applied — with `assumable=true` every
returned listing is assumable, with `minPrice = m > 0` every returned
listing's price is at least `m`, and with `maxPrice = M < 10000000` every
returned listing's price is at most `M`. -/
theorem post_filters (contains : List (ℚ × ℚ) → ℚ × ℚ → Bool)
    (p : QueryParams) (body : Body) (db : List Listing) (resp : PostOk)
    (l : Listing)
    (h : (POST contains p body db).1 = PostResponse.ok resp)
    (hl : l ∈ resp.listings) :
    (showOnlyAssumable p = true → l.isAssumable = true)
  ∧ (0 < minPriceOf p → ∃ v, l.price = some v ∧ minPriceOf p ≤ v)
  ∧ (maxPriceOf p < 10000000 → ∃ v, l.price = some v ∧ v ≤ maxPriceOf p) := by
  have hall := conds_all_of_mem_run h hl
  refine ⟨?_, ?_, ?_⟩
  · intro ha
    have hc : Cond.assumableTrue ∈ buildFilterConditions p := by
      simp [buildFilterConditions, ha]
    exact hall _ hc
  · intro hm
    have hc : Cond.priceGE (minPriceOf p) ∈ buildFilterConditions p := by
      simp [buildFilterConditions, hm]
    have := hall _ hc
    unfold evalCond at this
    cases hp : l.price with
    | none => rw [hp] at this; exact absurd this (by simp)
    | some v =>
      rw [hp] at this
      exact ⟨v, rfl, of_decide_eq_true this⟩
  · intro hm
    have hc : Cond.priceLE (maxPriceOf p) ∈ buildFilterConditions p := by
      simp [buildFilterConditions, hm]
    have := hall _ hc
    unfold evalCond at this
    cases hp : l.price with
    | none => rw [hp] at this; exact absurd this (by simp)
    | some v =>
      rw [hp] at this
      exact ⟨v, rfl, of_decide_eq_true this⟩

theorem post_filters_witness :
    lw.isAssumable = true
  ∧ (∃ v, lw.price = some v ∧ minPriceOf pFilters ≤ v)
  ∧ (∃ v, lw.price = some v ∧ v ≤ maxPriceOf pFilters) := by
  have h : (POST cAll pFilters bodyW [lw]).1 = PostResponse.ok respW := rfl
  have hl : lw ∈ respW.listings := by decide
  exact ⟨(post_filters cAll pFilters bodyW [lw] respW lw h hl).1 (by decide),
    (post_filters cAll pFilters bodyW [lw] respW lw h hl).2.1 (by decide),
    (post_filters cAll pFilters bodyW [lw] respW lw h hl).2.2 (by decide)⟩

/-- Claim C8: a polygon-search response holds at most `limit` listings
(`limit` defaulting to 1000 when the parameter is absent), and the reported
`totalCount` is the length of the possibly truncated returned array — the
returned rows are the matching rows cut off at `limit`. -/
theorem post_limit_totalCount (contains : List (ℚ × ℚ) → ℚ × ℚ → Bool)
    (p : QueryParams) (body : Body) (db : List Listing) (resp : PostOk)
    (h : (POST contains p body db).1 = PostResponse.ok resp) :
    resp.totalCount = resp.listings.length
  ∧ resp.listings.length ≤ limitOf p
  ∧ (p.limit = none → limitOf p = 1000)
  ∧ ∃ geoms, validateBody body = Except.ok geoms ∧
      resp.listings =
        (db.filter (rowMatches contains (buildSelect p geoms))).take (limitOf p) := by
  obtain ⟨geoms, hg, hlst, hcount, -⟩ := POST_ok_inv h
  refine ⟨hcount, ?_, ?_, geoms, hg, hlst⟩
  · rw [hlst]
    unfold runSelect buildSelect
    simp [List.length_take]
  · intro hnone
    simp [limitOf, hnone]

theorem post_limit_totalCount_witness :
    respW.totalCount = respW.listings.length
  ∧ respW.listings.length ≤ limitOf pLimit1
  ∧ (db2.filter (rowMatches cAll (buildSelect pLimit1 [geomW]))).length = 2 := by
  have h : (POST cAll pLimit1 bodyW db2).1 = PostResponse.ok respW := rfl
  exact ⟨(post_limit_totalCount cAll pLimit1 bodyW db2 respW h).1,
    (post_limit_totalCount cAll pLimit1 bodyW db2 respW h).2.1, by decide⟩

theorem validFeature_eq_not_claimInvalid (f : FeatureVal) :
    validFeature f = !claimInvalidFeature f := by
  cases f with
  | nullish => rfl
  | feature g =>
    cases g with
    | none => rfl
    | some gv =>
      by_cases ht : gv.typ = "Polygon" <;>
        cases hc : gv.coordinates with
        | none => simp [validFeature, claimInvalidFeature, getGeom, hc, ht]
        | some ces =>
          cases ces with
          | nil => simp [validFeature, claimInvalidFeature, getGeom, hc, ht]
          | cons ce rest =>
            cases ce <;> simp [validFeature, claimInvalidFeature, getGeom, hc, ht]

theorem validateBody_error_iff (b : Body) :
    (∀ geoms, validateBody b ≠ Except.ok geoms) ↔ bodyBad b = true := by
  cases hb : toPolygonList b with
  | none =>
    have h1 : validateBody b = Except.error "Invalid JSON in request body" := by
      unfold validateBody
      rw [hb]
    have h2 : bodyBad b = true := by
      unfold bodyBad
      rw [hb]
    simp [h1, h2]
  | some fs =>
    have h1 : validateBody b =
        (if fs.isEmpty then
          Except.error "No polygons provided. Expected array of GeoJSON Polygon features."
        else if fs.all validFeature then Except.ok (fs.filterMap getGeom)
        else Except.error "Invalid polygon data. Expected GeoJSON Polygon feature.") := by
      unfold validateBody
      rw [hb]
    have h2 : bodyBad b = (fs.isEmpty || fs.any claimInvalidFeature) := by
      unfold bodyBad
      rw [hb]
    rw [h1, h2]
    by_cases he : fs.isEmpty
    · simp [he]
    · have heb : fs.isEmpty = false := by simpa using he
      rw [if_neg he, heb, Bool.false_or]
      by_cases ha : fs.all validFeature
      · rw [if_pos ha]
        constructor
        · intro hno
          exact absurd rfl (hno _)
        · intro hbad
          exfalso
          simp only [List.any_eq_true] at hbad
          obtain ⟨f, hf, hcl⟩ := hbad
          have hvf := List.all_eq_true.mp ha f hf
          rw [validFeature_eq_not_claimInvalid, hcl] at hvf
          simp at hvf
      · rw [if_neg ha]
        constructor
        · intro _
          simp only [List.any_eq_true]
          have ha2 : ¬ ∀ f ∈ fs, validFeature f = true := by
            simpa [List.all_eq_true] using ha
          push_neg at ha2
          obtain ⟨f, hf, hvf⟩ := ha2
          refine ⟨f, hf, ?_⟩
          rw [validFeature_eq_not_claimInvalid] at hvf
          cases hcl : claimInvalidFeature f
          · rw [hcl] at hvf
            simp at hvf
          · rfl
        · intro _ geoms hgeq
          exact Except.noConfusion hgeq

/-- Claim C5: the polygon-search route returns HTTP 400 exactly when the
body is invalid JSON, parses to an empty polygon list, or contains an
element with no geometry, a non-`'Polygon'` geometry type, or coordinates
whose first element is not an array; on a 400 no database statement is
issued, and a non-array JSON body is treated as a single-element polygon
list. -/
theorem post_validation (contains : List (ℚ × ℚ) → ℚ × ℚ → Bool)
    (p : QueryParams) (body : Body) (db : List Listing) :
    ((POST contains p body db).1 = PostResponse.badRequest ↔ bodyBad body = true)
  ∧ (bodyBad body = true → (POST contains p body db).2 = [])
  ∧ ∀ f, POST contains p (Body.single f) db = POST contains p (Body.arr [f]) db := by
  refine ⟨⟨?_, ?_⟩, ?_, fun f => rfl⟩
  · intro hbr
    rw [← validateBody_error_iff]
    intro geoms hgeq
    unfold POST at hbr
    rw [hgeq] at hbr
    exact PostResponse.noConfusion hbr
  · intro hbad
    have hv := (validateBody_error_iff body).mpr hbad
    unfold POST
    cases hv2 : validateBody body with
    | error e => rfl
    | ok geoms => exact absurd hv2 (hv geoms)
  · intro hbad
    have hv := (validateBody_error_iff body).mpr hbad
    unfold POST
    cases hv2 : validateBody body with
    | error e => rfl
    | ok geoms => exact absurd hv2 (hv geoms)

theorem post_validation_witness :
    (POST cAll pDefault Body.invalidJson dbW).2 = ([] : List DbOp) :=
  (post_validation cAll pDefault Body.invalidJson dbW).2.1 (by decide)

/-- Claim C7: neither route modifies the `Listing` table — every database
statement either route issues is a SELECT, and executing them leaves the
table unchanged. -/
theorem routes_readonly (contains : List (ℚ × ℚ) → ℚ × ℚ → Bool)
    (p : QueryParams) (body : Body) (db : List Listing)
    (params : List (String × String)) :
    execOps db (POST contains p body db).2 = db
  ∧ (∀ op ∈ (POST contains p body db).2, isWriteOp op = false)
  ∧ execOps db (recentGET params db).2 = db
  ∧ ∀ op ∈ (recentGET params db).2, isWriteOp op = false := by
  refine ⟨?_, ?_, rfl, ?_⟩
  · unfold POST
    cases hv : validateBody body with
    | error e => rfl
    | ok geoms => rfl
  · unfold POST
    cases hv : validateBody body with
    | error e => simp
    | ok geoms => simp [isWriteOp]
  · simp [recentGET, isWriteOp]

theorem routes_readonly_witness :
    execOps dbW (POST cAll pDefault bodyW dbW).2 = dbW
  ∧ execOps dbW (recentGET [] dbW).2 = dbW :=
  ⟨(routes_readonly cAll pDefault bodyW dbW []).1,
    (routes_readonly cAll pDefault bodyW dbW []).2.2.1⟩

/-- Claim C9: the price filters are sentinel-disabled — a lower price
condition is part of the query exactly when `minPrice > 0` and an upper one
exactly when `maxPrice < 10000000`; at the sentinel values (`minPrice = 0`,
`maxPrice = 10000000`) the built conditions are the same as when the
parameter is absent, so no price bound constrains the returned listings. -/
theorem price_filter_sentinels (p : QueryParams) :
    ((∃ m, Cond.priceGE m ∈ buildFilterConditions p) ↔ 0 < minPriceOf p)
  ∧ ((∃ m, Cond.priceLE m ∈ buildFilterConditions p) ↔ maxPriceOf p < 10000000)
  ∧ (maxPriceOf p = 10000000 →
      buildFilterConditions p =
        buildFilterConditions ⟨p.assumable, p.minPrice, none, p.limit⟩)
  ∧ (minPriceOf p = 0 →
      buildFilterConditions p =
        buildFilterConditions ⟨p.assumable, none, p.maxPrice, p.limit⟩) := by
  refine ⟨?_, ?_, ?_, ?_⟩
  · by_cases hm : 0 < minPriceOf p <;>
      by_cases hM : maxPriceOf p < 10000000 <;>
        by_cases ha : showOnlyAssumable p <;>
          simp [buildFilterConditions, hm, hM, ha]
  · by_cases hm : 0 < minPriceOf p <;>
      by_cases hM : maxPriceOf p < 10000000 <;>
        by_cases ha : showOnlyAssumable p <;>
          simp [buildFilterConditions, hm, hM, ha]
  · intro hM
    have h1 : p.maxPrice.getD 10000000 = 10000000 := hM
    simp [buildFilterConditions, showOnlyAssumable, minPriceOf, maxPriceOf, h1]
  · intro hm
    have h1 : p.minPrice.getD 0 = 0 := hm
    simp [buildFilterConditions, showOnlyAssumable, minPriceOf, maxPriceOf, h1]

theorem price_filter_sentinels_witness :
    buildFilterConditions pMaxSentinel =
      buildFilterConditions
        ⟨pMaxSentinel.assumable, pMaxSentinel.minPrice, none, pMaxSentinel.limit⟩
  ∧ lExpensive ∈ runSelect cAll (buildSelect pMaxSentinel [geomW]) [lExpensive] :=
  ⟨(price_filter_sentinels pMaxSentinel).2.2.1 (by decide), by decide⟩

/-- Counterexample to claim C4 as stated: the recent-listings route is not
paginated.  With a 101-row table the oldest row is in the table but absent
from the response, and a `page=2` request returns exactly the same rows as a
`page=1` request — no request retrieves a successive page. -/
theorem recent_not_paginated_cex :
    oldestRow ∈ dbBig
  ∧ oldestRow ∉ (recentGET [("page", "2")] dbBig).1
  ∧ (recentGET [("page", "2")] dbBig).1 = (recentGET [("page", "1")] dbBig).1 :=
  ⟨by decide, by decide, rfl⟩

/-- Claim C4 (amended): each GET request returns the one fixed page of at
most 100 listings from the `Listing` table ordered most-recent-first by
`createdAt` descending; the page is the same whatever parameters the caller
sends, so successive pages of the table cannot be retrieved. -/
theorem recentGET_fixed_first_page (params params2 : List (String × String))
    (db : List Listing) :
    (recentGET params db).1 = (recentGET params2 db).1
  ∧ ((recentGET params db).1).length = min 100 db.length
  ∧ List.Sorted createdDesc (recentGET params db).1
  ∧ ∀ l ∈ (recentGET params db).1, l ∈ db := by
  refine ⟨rfl, ?_, ?_, ?_⟩
  · show ((List.insertionSort createdDesc db).take 100).length = _
    rw [List.length_take, List.length_insertionSort]
  · exact (List.sorted_insertionSort createdDesc db).sublist
      (List.take_sublist _ _)
  · intro l hl
    have h1 : l ∈ List.insertionSort createdDesc db :=
      (List.take_sublist _ _).subset hl
    exact (List.mem_insertionSort createdDesc).mp h1

theorem recentGET_fixed_first_page_witness :
    (recentGET [("page", "1")] [rowA, rowB]).1 =
      (recentGET [("page", "2")] [rowA, rowB]).1
  ∧ rowA ∈ ([rowA, rowB] : List Listing) :=
  ⟨(recentGET_fixed_first_page [("page", "1")] [("page", "2")] [rowA, rowB]).1,
    (recentGET_fixed_first_page [("page", "1")] [("page", "2")]
      [rowA, rowB]).2.2.2 rowA (by decide)⟩
